import Mathlib

/-!
Verification of the conversational-orchestration core of the MoneyEZ AI
service: a shallow embedding, in Lean 4, of the deterministic control logic
of `app/langgraph/rag_node.py`, `app/langgraph/agent.py`,
`app/knowledge/vectordb.py` and `app/langgraph/tools.py`, together with
theorems settling the frozen specification claims about that logic.

Modelling conventions:
* Python strings are Lean `String`s; `len` is `String.length` (code points),
  `str.lower()` is `String.toLower`, `str.strip()` is `String.trim`,
  `str.replace(a, b)` is `String.replace`, `"x".join l` is
  `String.intercalate "x" l`, `pat in s` is `pyContains s pat`.
* `async` functions that may raise are modelled as functions into
  `Except Unit _`; catching `Exception` is pattern matching on `.error`.
* LangChain messages are the inductive `Msg`; only AI messages carry a
  `tool_calls` attribute, mirroring `hasattr(msg, "tool_calls")`.
* External effects (the Qdrant store, the Gemini model, the finance REST
  backend) are passed in as explicit function or data parameters standing
  for the value the effect produced at the call site.
-/

/-- A LangChain `Document`: chunk text plus a metadata key/value mapping. -/
structure Doc where
  page_content : String
  metadata : List (String × String)
deriving DecidableEq, Repr

/-- A model-requested tool call: id, tool name, structured arguments. -/
structure ToolCall where
  id : String
  name : String
  args : List (String × String)
deriving DecidableEq, Repr

/-- One part of a structured (list-shaped) message content: either a plain
string or a dict whose `text` entry may be absent (`none`). -/
inductive MsgPart where
  | str (s : String)
  | dict (text : Option String)
deriving DecidableEq, Repr

/-- The `content` field of a LangChain message: a plain string, a dict with
an optional `text` entry, or a list of parts. -/
inductive MsgContent where
  | str (s : String)
  | dict (text : Option String)
  | parts (l : List MsgPart)
deriving DecidableEq, Repr

/-- A conversation message. Only `ai` messages carry a `tool_calls`
attribute (as in LangChain, where `hasattr(msg, "tool_calls")` holds
exactly for `AIMessage`). -/
inductive Msg where
  | system (content : String)
  | human (content : MsgContent)
  | ai (content : MsgContent) (tool_calls : List ToolCall)
  | tool (content : MsgContent) (tool_call_id : String)
deriving DecidableEq, Repr

/-- The graph state (`AgentState`): message history, generated retrieval
queries, the RAG decision, and the retrieved context. -/
structure AgentState where
  messages : List Msg
  queries : List String
  need_rag : Bool
  rag_context : List String
  retrieved_docs : List Doc
deriving DecidableEq, Repr

/-- Python `pat in s` on strings: `pat` occurs contiguously in `s`. -/
def pyContains (s pat : String) : Bool :=
  (List.range (s.toList.length + 1)).any (fun i => pat.toList.isPrefixOf (s.toList.drop i))

/-- Python `s.split()`: split on whitespace runs, dropping empty pieces. -/
def pySplitWhitespace (s : String) : List String :=
  (s.split Char.isWhitespace).filter (fun t => t ≠ "")

/-- `get_message_text` from `rag_node.py`: extract plain text from the
various message-content shapes. -/
def get_message_text : MsgContent → String
  | MsgContent.str s => s
  | MsgContent.dict t => t.getD ""
  | MsgContent.parts l =>
      (String.join (l.map (fun c =>
        match c with
        | MsgPart.str s => s
        | MsgPart.dict t => t.getD ""))).trim

/-- The apostrophe character, U+0027. -/
def squoteChar : Char := Char.ofNat 39

/-- Python `repr` of a string, as used by the `{v!r}` interpolation in
`format_docs`: quote with a single quote (or a double quote when the value
contains a single quote but no double quote) and escape the backslash, the
quote character and common control characters. -/
def pyReprStr (v : String) : String :=
  let quote := if v.toList.contains squoteChar && !(v.toList.contains '"') then '"' else squoteChar
  let escaped := String.join (v.toList.map (fun c =>
    if c = '\\' then "\\\\"
    else if c = quote then String.singleton '\\' ++ String.singleton quote
    else if c = '\n' then "\\n"
    else if c = '\r' then "\\r"
    else if c = '\t' then "\\t"
    else String.singleton c))
  String.singleton quote ++ escaped ++ String.singleton quote

/-- `format_docs` from `rag_node.py`: serialize documents as an XML-like
block, each document wrapped with its metadata as `k=v!r` attributes. -/
def format_docs (docs : List Doc) : String :=
  if docs.isEmpty then "<documents></documents>"
  else
    let formatted_docs := docs.map (fun doc =>
      let meta_str := String.join (doc.metadata.map (fun kv => " " ++ kv.1 ++ "=" ++ pyReprStr kv.2))
      let meta_str := if meta_str ≠ "" then " " ++ meta_str else meta_str
      "<document" ++ meta_str ++ ">\n" ++ doc.page_content ++ "\n</document>")
    "<documents>\n" ++ String.join formatted_docs ++ "\n</documents>"

/-- The fixed knowledge-trigger keyword list of `should_use_rag`. -/
def knowledge_keywords : List String :=
  ["tài chính", "thông tin", "giải thích", "là gì", "định nghĩa",
   "khái niệm", "cách", "làm sao", "tư vấn", "nên", "hướng dẫn",
   "quy định", "luật", "chính sách", "so sánh", "khác nhau"]

/-- The output of the RAG decision node: `{need_rag, queries}`. -/
structure RagDecision where
  need_rag : Bool
  queries : List String
deriving DecidableEq, Repr

/-- `should_use_rag` from `rag_node.py`: decide whether retrieval is
warranted. `use_rag` is the resolved configuration flag (default `true`). -/
def should_use_rag (use_rag : Bool) (messages : List Msg) : RagDecision :=
  if use_rag = false then ⟨false, []⟩
  else
    match messages.getLast? with
    | some (Msg.human c) =>
        let human_input := get_message_text c
        ⟨knowledge_keywords.any (fun keyword => pyContains human_input.toLower keyword), []⟩
    | _ => ⟨false, []⟩

/-- The fixed filler-phrase list of `generate_query`. -/
def filler_words : List String :=
  ["cho tôi", "giúp tôi", "làm ơn", "xin vui lòng", "bạn có thể",
   "tôi muốn", "tôi cần", "xin", "hãy", "thông tin về"]

/-- The fixed financial-term list of `generate_query`. -/
def financial_terms : List String :=
  ["đầu tư", "tiết kiệm", "chi tiêu", "thu nhập", "lãi suất",
   "chứng khoán", "cổ phiếu", "trái phiếu", "ngân sách", "vay", "nợ",
   "thuế", "bảo hiểm", "quỹ", "tài chính cá nhân"]

/-- The filler-stripping loop of `generate_query`: for each filler phrase in
order, remove every occurrence and strip surrounding whitespace. -/
def optimize_query (human_input : String) : String :=
  filler_words.foldl (fun acc word => ((acc.replace word "")).trim) human_input

/-- `generate_query` from `rag_node.py`: returns the updated `queries`
sequence (the node returns `{"queries": result}`). When the last message is
not a user turn it returns an empty list; otherwise it appends the
optimized-or-original query and, when financial terms occur in the
(lower-cased) input, a joined keyword query. -/
def generate_query (messages : List Msg) (state_queries : List String) : List String :=
  match messages.getLast? with
  | some (Msg.human c) =>
      let human_input := get_message_text c
      let optimized0 := optimize_query human_input
      let optimized_query :=
        if 2 * optimized0.length < human_input.length then human_input else optimized0
      let queries := state_queries ++ [optimized_query]
      let keyword_query := String.intercalate " "
        (financial_terms.filter (fun term => pyContains human_input.toLower term))
      if keyword_query ≠ "" then queries ++ [keyword_query] else queries
  | _ => []

/-- The term-overlap score of `rank_doc` inside `retrieve_knowledge`:
the cardinality of the intersection of the lower-cased whitespace-tokenized
term set of the main query with that of the document text. -/
def term_set (s : String) : List String :=
  (pySplitWhitespace s.toLower).dedup

/-- `rank_doc` from `retrieve_knowledge`: count the term overlap between the
main query and the document content. -/
def rank_doc (main_query : String) (doc : Doc) : Nat :=
  ((term_set main_query).filter (fun t => t ∈ term_set doc.page_content)).length

/-- The body of the dedup loop of `retrieve_knowledge`: accept `doc` into
the running `(all_docs, all_doc_content)` pair only when its text content
was not accepted before (exact string membership). -/
def add_unique (acc : List Doc × List String) (doc : Doc) : List Doc × List String :=
  if doc.page_content ∈ acc.2 then acc
  else (acc.1 ++ [doc], acc.2 ++ [doc.page_content])

/-- The query loop of `retrieve_knowledge`: for each query in order, call
the retriever (which may raise, modelled by `Except`), and fold the
returned documents through the dedup step. The first raised exception
aborts the loop. -/
def collect_docs (retriever : String → Except Unit (List Doc)) :
    List String → List Doc × List String → Except Unit (List Doc × List String)
  | [], acc => Except.ok acc
  | query :: rest, acc =>
      match retriever query with
      | Except.error _ => Except.error ()
      | Except.ok doc_objects => collect_docs retriever rest (doc_objects.foldl add_unique acc)

/-- The output of the knowledge-retrieval node:
`{rag_context, retrieved_docs}`. -/
structure RetrievalOutput where
  rag_context : List String
  retrieved_docs : List Doc
deriving DecidableEq, Repr

/-- `retrieve_knowledge` from `rag_node.py`: with no queries return empty
output; otherwise run every query through the retriever with content-based
dedup; on more than one accepted document, stable-sort descending by
`rank_doc` against the first query and re-derive the content list; any
exception from the retriever yields empty output instead of propagating. -/
def retrieve_knowledge (retriever : String → Except Unit (List Doc))
    (queries : List String) : RetrievalOutput :=
  match queries with
  | [] => ⟨[], []⟩
  | main_query :: _ =>
      match collect_docs retriever queries ([], []) with
      | Except.error _ => ⟨[], []⟩
      | Except.ok (all_docs, all_doc_content) =>
          if 1 < all_docs.length then
            let sorted := all_docs.mergeSort
              (fun a b => decide (rank_doc main_query b ≤ rank_doc main_query a))
            ⟨sorted.map Doc.page_content, sorted⟩
          else ⟨all_doc_content, all_docs⟩

/-- `DEFAULT_SYSTEM_PROMPT` from `agent.py`. -/
def DEFAULT_SYSTEM_PROMPT : String :=
  "\nBạn là trợ lý tài chính thông minh MoneyEZ, một trợ lý AI được tạo ra để giúp người dùng quản lý tài chính cá nhân.\nNhiệm vụ của bạn:\n1. Giúp người dùng theo dõi chi tiêu hàng ngày\n2. Phân loại các khoản chi tiêu vào các danh mục phù hợp\n3. Cung cấp thông tin và tư vấn tài chính\n4. Trả lời mọi câu hỏi liên quan đến tài chính cá nhân một cách chính xác và hữu ích\n5. Nếu có bất kỳ thông tin nào không rõ ràng, hãy yêu cầu người dùng cung cấp thêm thông tin.\nTrả lời ngắn gọn và rõ ràng, không có markdown hay định dạng phức tạp.\n"

/-- The conditional-router result of `should_continue`: either the tool
node or the terminal `END` state. -/
inductive Route where
  | tools
  | terminal
deriving DecidableEq, Repr

/-- The pending tool calls a message carries: the `tool_calls` list of an
AI message, nothing for every other role (which has no such attribute). -/
def pending_tool_calls : Msg → List ToolCall
  | Msg.ai _ tcs => tcs
  | _ => []

/-- `should_continue` from `agent.py`: terminal when the history is empty,
when the last message has no `tool_calls` attribute, or when its
`tool_calls` list is empty; otherwise go to the tool node. -/
def should_continue (messages : List Msg) : Route :=
  match messages.getLast? with
  | none => Route.terminal
  | some (Msg.ai _ tcs) => if tcs.isEmpty then Route.terminal else Route.tools
  | some _ => Route.terminal

/-- The effective system prompt built by `call_model`: the base prompt with
an appended knowledge block when `retrieved_docs` (preferred) or
`rag_context` is non-empty. -/
def enhanced_system_prompt (system : String) (state : AgentState) : String :=
  if state.retrieved_docs.isEmpty = false then
    system ++ "\n\nRelevant information from knowledge base:\n" ++ format_docs state.retrieved_docs
  else if state.rag_context.isEmpty = false then
    system ++ "\n\nRelevant information from knowledge base:\n" ++
      String.intercalate "\n\n" state.rag_context
  else system

/-- `call_model` from `agent.py`, returning the messages delta. The
language model is the explicit parameter `llm` (fed the effective system
prompt and the chat history); with an empty history the node short-circuits
to a single system message and `llm` is never consulted. -/
def call_model (llm : String → List Msg → Msg) (system_prompt : Option String)
    (state : AgentState) : List Msg :=
  let system := system_prompt.getD DEFAULT_SYSTEM_PROMPT
  let enhanced_system := enhanced_system_prompt system state
  if state.messages.isEmpty then [Msg.system enhanced_system]
  else [llm enhanced_system state.messages]

/-- The fallback retriever yielded by `make_retriever` on construction
failure: empty result for every query. -/
def fallback_retriever (query : String) : List Doc :=
  []

/-- `query_knowledge_base` from `vectordb.py`: similarity search with the
default `top_k = 3`; any exception from the store is caught and turned into
an empty result. The store is the explicit `similarity_search` parameter. -/
def query_knowledge_base (similarity_search : String → Nat → Except Unit (List Doc))
    (query : String) : List Doc :=
  match similarity_search query 3 with
  | Except.ok results => results
  | Except.error _ => []

/-- `make_retriever` from `vectordb.py`: yield the wrapper around
`query_knowledge_base`, or — when construction fails — the fallback
retriever, so the caller always receives a total query function. -/
def make_retriever (similarity_search : String → Nat → Except Unit (List Doc))
    (construction_fails : Bool) : String → List Doc :=
  if construction_fails then fallback_retriever
  else query_knowledge_base similarity_search

/-- A Python exception class, as escapes a tool function. -/
inductive PyError where
  | attributeError
  | requestException
deriving DecidableEq, Repr

/-- The outcome of one HTTP request made with `requests`: a response with a
status code and a parsed body, or a raised network error. -/
inductive HttpResult (β : Type) where
  | response (status : Nat) (body : β)
  | network_error
deriving DecidableEq, Repr

/-- A subcategory record returned by the finance backend. -/
structure Subcategory where
  categoryName : String
  name : String
  code : String
  description : String
deriving DecidableEq, Repr

/-- The per-subcategory line built by `get_user_subcategories`. -/
def format_subcategory (sc : Subcategory) : String :=
  "Là một danh mục con nằm trong danh mục " ++ sc.categoryName ++
    ", danh mục này có tên là " ++ sc.name ++ ", mã danh mục là " ++ sc.code ++
    ", mô tả là " ++ sc.description

/-- Python truthiness of an optional string: `None` and `""` are falsy. -/
def is_falsy : Option String → Bool
  | none => true
  | some s => s.isEmpty

/-- `get_user_subcategories` from `tools.py`. With a falsy user id it
returns a placeholder string. Otherwise it performs the backend GET
(`http_get` is its outcome): a network error from `requests.get` is not
caught and escapes; on status 200 the subcategories are formatted and
joined; on any other status the logging line reads `response.data.message`,
but a `requests.Response` has no `data` attribute, so an `AttributeError`
is raised before the `return None` is reached. -/
def get_user_subcategories (user_id : Option String)
    (http_get : HttpResult (List Subcategory)) : Except PyError String :=
  if is_falsy user_id then Except.ok "No subcategories available"
  else
    match http_get with
    | HttpResult.network_error => Except.error PyError.requestException
    | HttpResult.response status data =>
        if status = 200 then
          Except.ok (String.intercalate "\n" (data.map format_subcategory))
        else
          Except.error PyError.attributeError

/-- The JSON object `parse_response` extracts from the LLM answer in
`user_input_expense` (each field may be `null`). -/
structure ParsedExpense where
  amount : Option Int
  subcategory_code : Option String
  description : Option String
  transaction_datetime : Option String
deriving DecidableEq, Repr

/-- The transaction record of the backend response to
`create_transaction_v2`. -/
structure TransactionData where
  amount : Option Int
  subcategoryName : String
  description : String
  transactionDate : String
  type : String
  id : String
deriving DecidableEq, Repr

/-- Insert a dot every three digits from the right, as
`f"{n:,}".replace(",", ".")` renders a non-negative integer. -/
def sep_thousands (s : String) : String :=
  String.mk ((s.toList.reverse.enum).foldl
    (fun acc ic => if ic.1 % 3 = 0 && ic.1 ≠ 0 then ic.2 :: '.' :: acc else ic.2 :: acc) [])

/-- `format_currency` from `tools.py`: thousands-separated amount followed
by the currency marker. -/
def format_currency (amount : Int) : String :=
  (if amount < 0 then "-" else "") ++ sep_thousands (toString amount.natAbs) ++ " VNĐ"

/-- Parse a string of exactly `len` decimal digits. -/
def parse_fixed_nat (s : String) (len : Nat) : Option Nat :=
  if s.toList.length = len && s.toList.all Char.isDigit then
    some (s.toList.foldl (fun n c => n * 10 + (c.toNat - 48)) 0)
  else none

/-- Gregorian leap-year test, as `datetime` validates dates. -/
def leap_year (y : Nat) : Bool :=
  (y % 4 = 0 && y % 100 ≠ 0) || y % 400 = 0

/-- Day count of a month, as `datetime` validates dates. -/
def days_in_month (y m : Nat) : Nat :=
  if m = 2 then (if leap_year y then 29 else 28)
  else if m = 4 || m = 6 || m = 9 || m = 11 then 30
  else 31

/-- `datetime.strptime(s, "%Y-%m-%d")`, reduced to the validated
year/month/day triple (or `none` when parsing fails). -/
def strptime_date (s : String) : Option (Nat × Nat × Nat) :=
  match s.splitOn "-" with
  | [ys, ms, ds] =>
      match parse_fixed_nat ys 4, parse_fixed_nat ms 2, parse_fixed_nat ds 2 with
      | some y, some m, some d =>
          if 1 ≤ m && m ≤ 12 && 1 ≤ d && d ≤ days_in_month y m then some (y, m, d)
          else none
      | _, _, _ => none
  | _ => none

/-- `datetime.strptime(s, "%H:%M:%S")`, reduced to the validated
hour/minute/second triple (or `none` when parsing fails). -/
def strptime_time (s : String) : Option (Nat × Nat × Nat) :=
  match s.splitOn ":" with
  | [hs, ms, ss] =>
      match parse_fixed_nat hs 2, parse_fixed_nat ms 2, parse_fixed_nat ss 2 with
      | some h, some m, some sec =>
          if h ≤ 23 && m ≤ 59 && sec ≤ 61 then some (h, m, sec) else none
      | _, _, _ => none
  | _ => none

/-- Zero-pad a number below 100 to two digits, as `strftime` renders day,
month, hour and minute fields. -/
def two_digit (n : Nat) : String :=
  (if n < 10 then "0" else "") ++ toString n

/-- `format_user_friendly_datetime` from `tools.py`: render an ISO datetime
(or bare date) as `dd/mm/yyyy hh:mm` (or `dd/mm/yyyy`); on any parse
failure the input is returned unchanged. -/
def format_user_friendly_datetime (datetime_str : String) : String :=
  if pyContains datetime_str "T" then
    match datetime_str.splitOn "T" with
    | [ds, ts] =>
        match strptime_date ds, strptime_time ts with
        | some (y, m, d), some (hh, mm, _) =>
            two_digit d ++ "/" ++ two_digit m ++ "/" ++ toString y ++ " " ++
              two_digit hh ++ ":" ++ two_digit mm
        | _, _ => datetime_str
    | _ => datetime_str
  else
    match strptime_date datetime_str with
    | some (y, m, d) => two_digit d ++ "/" ++ two_digit m ++ "/" ++ toString y
    | none => datetime_str

/-- The confirmation string `user_input_expense` builds from a parsed
backend response (the `try` branch after a 200/201 status). -/
def transaction_success_message (parsed : ParsedExpense) (tx : TransactionData) : String :=
  let amount := tx.amount.getD (parsed.amount.getD 0)
  let amount_str := format_currency amount
  let datetime_str := format_user_friendly_datetime tx.transactionDate
  let transaction_type := tx.type.toUpper
  let base :=
    if transaction_type = "EXPENSE" then
      "✅ Đã ghi nhận khoản chi tiêu " ++ amount_str ++ " vào " ++ datetime_str
    else
      "✅ Đã ghi nhận khoản thu nhập " ++ amount_str ++ " vào " ++ datetime_str
  let base := if tx.subcategoryName ≠ "" then base ++ " cho danh mục " ++ tx.subcategoryName else base
  let base := if tx.description ≠ "" then base ++ " với mô tả: " ++ tx.description else base
  if tx.id ≠ "" then base ++ "\nMã giao dịch: " ++ tx.id else base

/-- `user_input_expense` from `tools.py`, as a function of the outcomes of
its external calls: the subcategory GET (`subcats_http`), the LLM
classification after `parse_response` (`llm_parsed`, `none` when the reply
was not valid JSON), and the transaction POST (`post_http`, whose body is
`none` when the response content is not parseable JSON — that inner failure
is caught and degraded to a short confirmation). Exceptions that the source
does not catch are returned as `Except.error`: the `AttributeError` or
request exception propagating out of `get_user_subcategories`, the
`AttributeError` from calling `.get` on a `None` parse result, and a
network error of the uncaught `requests.post`. A non-2xx POST status is
handled, producing the failure string. -/
def user_input_expense (user_id : Option String)
    (subcats_http : HttpResult (List Subcategory))
    (llm_parsed : Option ParsedExpense)
    (post_http : HttpResult (Option TransactionData)) : Except PyError String :=
  if user_id = none then Except.ok "User ID is not set. Please provide a valid user ID."
  else
    match get_user_subcategories user_id subcats_http with
    | Except.error e => Except.error e
    | Except.ok _subcategories =>
        match llm_parsed with
        | none => Except.error PyError.attributeError
        | some parsed =>
            match post_http with
            | HttpResult.network_error => Except.error PyError.requestException
            | HttpResult.response status body =>
                if status = 200 || status = 201 then
                  match body with
                  | some tx => Except.ok (transaction_success_message parsed tx)
                  | none =>
                      Except.ok ("✅ Đã ghi nhận khoản giao dịch " ++
                        format_currency (parsed.amount.getD 0) ++ " thành công")
                else
                  Except.ok "❌ Đã xảy ra lỗi khi ghi nhận giao dịch. Vui lòng thử lại sau."

/-- Bridge between the executable substring test `pyContains` and the
declarative decomposition of the string around the pattern. -/
theorem pyContains_iff (s pat : String) :
    pyContains s pat = true ↔ ∃ pre post : List Char, s.toList = pre ++ pat.toList ++ post := by
  unfold pyContains
  rw [List.any_eq_true]
  constructor
  · rintro ⟨i, _, hpre⟩
    rw [List.isPrefixOf_iff_prefix] at hpre
    obtain ⟨t, ht⟩ := hpre
    refine ⟨s.toList.take i, t, ?_⟩
    conv_lhs => rw [← List.take_append_drop i s.toList]
    rw [← ht]
    simp
  · rintro ⟨pre, post, h⟩
    refine ⟨pre.length, ?_, ?_⟩
    · rw [List.mem_range]
      have hlen := congrArg List.length h
      simp only [List.length_append] at hlen
      omega
    · rw [List.isPrefixOf_iff_prefix, h, List.append_assoc, List.drop_left]
      exact ⟨post, rfl⟩

/-- C3: the RAG Decision Node returns `need_rag = false` when the `use_rag`
flag is off, the history is empty, or the latest message is not a user
turn; otherwise `need_rag = true` exactly when some fixed knowledge keyword
occurs as a substring of the lower-cased latest user text; the returned
queries list is always empty. -/
theorem should_use_rag_policy (use_rag : Bool) (messages : List Msg) :
    (should_use_rag use_rag messages).queries = [] ∧
    ((should_use_rag use_rag messages).need_rag = true ↔
      use_rag = true ∧ ∃ c, messages.getLast? = some (Msg.human c) ∧
        ∃ kw ∈ knowledge_keywords, ∃ pre post : List Char,
          (get_message_text c).toLower.toList = pre ++ kw.toList ++ post) := by
  unfold should_use_rag
  cases use_rag with
  | false => simp
  | true =>
    simp only [Bool.true_eq_false, if_false, true_and]
    cases hml : messages.getLast? with
    | none => simp
    | some m =>
      cases m with
      | human c => simp [List.any_eq_true, pyContains_iff]
      | system s => simp
      | ai c tcs => simp
      | tool c i => simp

/-- C4: when the latest message is a user turn, the first query the Query
Generation Node appends is the filler-stripped text, or the original text
when the stripped text lost more than half the original length; hence the
appended first query is never shorter than half the original. -/
theorem generate_query_first_query (messages : List Msg) (state_queries : List String)
    (c : MsgContent) (hlast : messages.getLast? = some (Msg.human c)) :
    (∃ tail, generate_query messages state_queries =
      state_queries ++
        (if 2 * (optimize_query (get_message_text c)).length < (get_message_text c).length
          then get_message_text c else optimize_query (get_message_text c)) :: tail) ∧
    (get_message_text c).length ≤
      2 * (if 2 * (optimize_query (get_message_text c)).length < (get_message_text c).length
          then get_message_text c else optimize_query (get_message_text c)).length := by
  constructor
  · unfold generate_query
    rw [hlast]
    simp only []
    split
    · exact ⟨[String.intercalate " "
        (financial_terms.filter (fun term => pyContains (get_message_text c).toLower term))], by simp⟩
    · exact ⟨[], by simp⟩
  · split
    · omega
    · next h => omega

/-- Witness for C4 at a concrete user message. -/
theorem generate_query_first_query_witness :
    ([Msg.human (MsgContent.str "xin tư vấn tài chính")].getLast? =
      some (Msg.human (MsgContent.str "xin tư vấn tài chính"))) ∧
    ((∃ tail, generate_query [Msg.human (MsgContent.str "xin tư vấn tài chính")] [] =
      [] ++
        (if 2 * (optimize_query (get_message_text (MsgContent.str "xin tư vấn tài chính"))).length <
            (get_message_text (MsgContent.str "xin tư vấn tài chính")).length
          then get_message_text (MsgContent.str "xin tư vấn tài chính")
          else optimize_query (get_message_text (MsgContent.str "xin tư vấn tài chính"))) :: tail) ∧
    (get_message_text (MsgContent.str "xin tư vấn tài chính")).length ≤
      2 * (if 2 * (optimize_query (get_message_text (MsgContent.str "xin tư vấn tài chính"))).length <
            (get_message_text (MsgContent.str "xin tư vấn tài chính")).length
          then get_message_text (MsgContent.str "xin tư vấn tài chính")
          else optimize_query (get_message_text (MsgContent.str "xin tư vấn tài chính"))).length) :=
  ⟨rfl, generate_query_first_query [Msg.human (MsgContent.str "xin tư vấn tài chính")] []
    (MsgContent.str "xin tư vấn tài chính") rfl⟩

/-- C6: the Retriever Adapter constructor always yields a total query
function: on construction failure the fallback returns the empty list for
every query, on success it yields the `query_knowledge_base` wrapper, which
itself recovers any store exception into an empty list instead of raising. -/
theorem make_retriever_total_fallback (similarity_search : String → Nat → Except Unit (List Doc))
    (query : String) :
    make_retriever similarity_search true query = [] ∧
    make_retriever similarity_search false query = query_knowledge_base similarity_search query ∧
    ∀ e, similarity_search query 3 = Except.error e →
      query_knowledge_base similarity_search query = [] := by
  refine ⟨rfl, rfl, ?_⟩
  intro e he
  unfold query_knowledge_base
  rw [he]

/-- C7: on a non-empty history the Conditional Router returns the terminal
state exactly when the most recent message carries no pending tool calls,
and the tool-execution state otherwise. -/
theorem should_continue_router (ms : List Msg) (m : Msg) :
    (should_continue (ms ++ [m]) = Route.terminal ↔ pending_tool_calls m = []) ∧
    (should_continue (ms ++ [m]) = Route.tools ↔ pending_tool_calls m ≠ []) := by
  unfold should_continue
  rw [List.getLast?_concat]
  cases m with
  | ai c tcs => cases tcs <;> simp [pending_tool_calls]
  | system s => simp [pending_tool_calls]
  | human c => simp [pending_tool_calls]
  | tool c i => simp [pending_tool_calls]

/-- C8: with an empty message history the Model Invocation Node
short-circuits: its messages delta is exactly one system message carrying
the effective system prompt, and the result does not depend on the language
model (no model call is made). -/
theorem call_model_empty_history (llm llm2 : String → List Msg → Msg)
    (system_prompt : Option String) (qs : List String) (nr : Bool)
    (rc : List String) (rd : List Doc) :
    call_model llm system_prompt ⟨[], qs, nr, rc, rd⟩ =
      [Msg.system (enhanced_system_prompt (system_prompt.getD DEFAULT_SYSTEM_PROMPT)
        ⟨[], qs, nr, rc, rd⟩)] ∧
    call_model llm system_prompt ⟨[], qs, nr, rc, rd⟩ =
      call_model llm2 system_prompt ⟨[], qs, nr, rc, rd⟩ :=
  ⟨rfl, rfl⟩

/-- C9 (code bug): a tool-execution failure is not always recovered at the
tool boundary. When the subcategory request of `user_input_expense` answers
with a non-2xx status, the logging line reads `response.data.message` on a
`requests.Response`, which has no `data` attribute, so an `AttributeError`
escapes the tool instead of a user-facing failure string; a network error
of the uncaught transaction POST likewise escapes as a request exception. -/
theorem user_input_expense_exception_escapes :
    get_user_subcategories (some "user-1") (HttpResult.response 500 []) =
      Except.error PyError.attributeError ∧
    user_input_expense (some "user-1") (HttpResult.response 500 [])
      (some ⟨some 100000, some "MEA_01", some "an sang", none⟩) (HttpResult.response 201 none) =
      Except.error PyError.attributeError ∧
    user_input_expense (some "user-1") (HttpResult.response 200 [])
      (some ⟨some 100000, some "MEA_01", some "an sang", none⟩) HttpResult.network_error =
      Except.error PyError.requestException :=
  ⟨rfl, rfl, rfl⟩

/-- The dedup step keeps the content list the pointwise image of the
document list. -/
theorem add_unique_snd_map (acc : List Doc × List String) (doc : Doc)
    (h : acc.2 = acc.1.map Doc.page_content) :
    (add_unique acc doc).2 = (add_unique acc doc).1.map Doc.page_content := by
  unfold add_unique
  split
  · exact h
  · simp [h]

/-- Folding the dedup step keeps the content list the pointwise image of
the document list. -/
theorem foldl_add_unique_snd_map (docs : List Doc) (acc : List Doc × List String)
    (h : acc.2 = acc.1.map Doc.page_content) :
    (docs.foldl add_unique acc).2 = (docs.foldl add_unique acc).1.map Doc.page_content := by
  induction docs generalizing acc with
  | nil => exact h
  | cons d ds ih => exact ih _ (add_unique_snd_map acc d h)

/-- The dedup step never introduces a duplicate content. -/
theorem add_unique_snd_nodup (acc : List Doc × List String) (doc : Doc)
    (h : acc.2.Nodup) : (add_unique acc doc).2.Nodup := by
  unfold add_unique
  split
  · exact h
  · next hmem => simp [List.nodup_append, h, hmem]

/-- Folding the dedup step never introduces a duplicate content. -/
theorem foldl_add_unique_snd_nodup (docs : List Doc) (acc : List Doc × List String)
    (h : acc.2.Nodup) : (docs.foldl add_unique acc).2.Nodup := by
  induction docs generalizing acc with
  | nil => exact h
  | cons d ds ih => exact ih _ (add_unique_snd_nodup acc d h)

/-- Contents present after one dedup step. -/
theorem mem_add_unique_snd (acc : List Doc × List String) (doc : Doc) (c : String) :
    c ∈ (add_unique acc doc).2 ↔ c ∈ acc.2 ∨ doc.page_content = c := by
  unfold add_unique
  split
  · next hmem =>
    constructor
    · exact Or.inl
    · rintro (h | h)
      · exact h
      · exact h ▸ hmem
  · simp [List.mem_append, eq_comm]

/-- Contents present after folding the dedup step over a document list. -/
theorem mem_foldl_add_unique_snd (docs : List Doc) (acc : List Doc × List String) (c : String) :
    c ∈ (docs.foldl add_unique acc).2 ↔ c ∈ acc.2 ∨ ∃ d ∈ docs, d.page_content = c := by
  induction docs generalizing acc with
  | nil => simp
  | cons d ds ih =>
    simp only [List.foldl_cons, ih, mem_add_unique_snd, List.mem_cons]
    constructor
    · rintro ((h1 | h2) | ⟨d', hd', hd'c⟩)
      · exact Or.inl h1
      · exact Or.inr ⟨d, Or.inl rfl, h2⟩
      · exact Or.inr ⟨d', Or.inr hd', hd'c⟩
    · rintro (h1 | ⟨d', rfl | hd', hd'c⟩)
      · exact Or.inl (Or.inl h1)
      · exact Or.inl (Or.inr hd'c)
      · exact Or.inr ⟨d', hd', hd'c⟩

/-- A query whose retrieval raises makes the whole collection loop raise. -/
theorem collect_docs_error (retriever : String → Except Unit (List Doc)) (q : String)
    (qs : List String) (hq : q ∈ qs) (he : retriever q = Except.error ())
    (acc : List Doc × List String) :
    collect_docs retriever qs acc = Except.error () := by
  induction qs generalizing acc with
  | nil => cases hq
  | cons hd tl ih =>
    unfold collect_docs
    rcases List.mem_cons.mp hq with h | h
    · subst h
      rw [he]
    · cases hhd : retriever hd with
      | error e => rfl
      | ok ds => exact ih h _

/-- A successful collection loop keeps the content list the pointwise image
of the document list. -/
theorem collect_docs_snd_map (retriever : String → Except Unit (List Doc)) (qs : List String)
    (acc out : List Doc × List String) (hacc : acc.2 = acc.1.map Doc.page_content)
    (h : collect_docs retriever qs acc = Except.ok out) :
    out.2 = out.1.map Doc.page_content := by
  induction qs generalizing acc with
  | nil =>
    unfold collect_docs at h
    cases h
    exact hacc
  | cons q tl ih =>
    unfold collect_docs at h
    cases hq : retriever q with
    | error e => rw [hq] at h; cases h
    | ok ds =>
      rw [hq] at h
      exact ih _ (foldl_add_unique_snd_map ds acc hacc) h

/-- A successful collection loop never produces duplicate contents. -/
theorem collect_docs_snd_nodup (retriever : String → Except Unit (List Doc)) (qs : List String)
    (acc out : List Doc × List String) (hacc : acc.2.Nodup)
    (h : collect_docs retriever qs acc = Except.ok out) : out.2.Nodup := by
  induction qs generalizing acc with
  | nil =>
    unfold collect_docs at h
    cases h
    exact hacc
  | cons q tl ih =>
    unfold collect_docs at h
    cases hq : retriever q with
    | error e => rw [hq] at h; cases h
    | ok ds =>
      rw [hq] at h
      exact ih _ (foldl_add_unique_snd_nodup ds acc hacc) h

/-- Contents accepted by a successful collection loop: exactly those
already accepted plus those retrieved by some query of the list. -/
theorem collect_docs_snd_mem (retriever : String → Except Unit (List Doc)) (qs : List String)
    (acc out : List Doc × List String)
    (h : collect_docs retriever qs acc = Except.ok out) (c : String) :
    c ∈ out.2 ↔ c ∈ acc.2 ∨
      ∃ q ∈ qs, ∃ ds, retriever q = Except.ok ds ∧ ∃ d ∈ ds, d.page_content = c := by
  induction qs generalizing acc with
  | nil =>
    unfold collect_docs at h
    cases h
    simp
  | cons q tl ih =>
    unfold collect_docs at h
    cases hq : retriever q with
    | error e => rw [hq] at h; cases h
    | ok ds =>
      rw [hq] at h
      rw [ih _ h, mem_foldl_add_unique_snd]
      simp only [List.mem_cons]
      constructor
      · rintro ((h1 | ⟨d, hd, hdc⟩) | ⟨q', hq', rest⟩)
        · exact Or.inl h1
        · exact Or.inr ⟨q, Or.inl rfl, ds, hq, d, hd, hdc⟩
        · exact Or.inr ⟨q', Or.inr hq', rest⟩
      · rintro (h1 | ⟨q', rfl | hq', ds', hds', d, hd, hdc⟩)
        · exact Or.inl (Or.inl h1)
        · rw [hq] at hds'
          cases hds'
          exact Or.inl (Or.inr ⟨d, hd, hdc⟩)
        · exact Or.inr ⟨q', hq', ds', hds', d, hd, hdc⟩

/-- C5: any failure raised by a retriever call inside the Knowledge
Retrieval Node degrades the node output to empty `rag_context` and empty
`retrieved_docs`; being a total function, the node propagates no error. -/
theorem retrieve_knowledge_failure_empty (retriever : String → Except Unit (List Doc))
    (queries : List String) (q : String) (hq : q ∈ queries)
    (he : retriever q = Except.error ()) :
    retrieve_knowledge retriever queries = ⟨[], []⟩ := by
  cases queries with
  | nil => cases hq
  | cons hd tl =>
    unfold retrieve_knowledge
    rw [collect_docs_error retriever q (hd :: tl) hq he ([], [])]

/-- Witness for C5 at a concrete always-failing retriever. -/
theorem retrieve_knowledge_failure_empty_witness :
    ("lãi suất" ∈ ["lãi suất"] ∧
      (fun _ : String => (Except.error () : Except Unit (List Doc))) "lãi suất" =
        Except.error ()) ∧
    retrieve_knowledge (fun _ : String => (Except.error () : Except Unit (List Doc)))
      ["lãi suất"] = ⟨[], []⟩ :=
  ⟨⟨List.mem_singleton.mpr rfl, rfl⟩,
    retrieve_knowledge_failure_empty _ ["lãi suất"] "lãi suất"
      (List.mem_singleton.mpr rfl) rfl⟩

/-- C10: the two output fields of the Knowledge Retrieval Node always
correspond pointwise — `rag_context` is exactly the text content of
`retrieved_docs` position by position, also after the ranking step. -/
theorem retrieve_knowledge_parallel_outputs (retriever : String → Except Unit (List Doc))
    (queries : List String) :
    (retrieve_knowledge retriever queries).rag_context =
      (retrieve_knowledge retriever queries).retrieved_docs.map Doc.page_content := by
  cases queries with
  | nil => rfl
  | cons q qs =>
    unfold retrieve_knowledge
    cases hcd : collect_docs retriever (q :: qs) ([], []) with
    | error e => rfl
    | ok out =>
      obtain ⟨all_docs, all_content⟩ := out
      have hmap := collect_docs_snd_map retriever (q :: qs) ([], [])
        (all_docs, all_content) rfl hcd
      dsimp only
      split
      · rfl
      · exact hmap

/-- C2: across all queries (even when different queries return the same
document) the Knowledge Retrieval Node accepts each distinct full text
content exactly once: the output contents are duplicate-free, and a content
appears in the output exactly when some query retrieved a document with
that content. -/
theorem retrieve_knowledge_dedup (retriever : String → Except Unit (List Doc))
    (queries : List String) (all_docs : List Doc) (all_content : List String)
    (hcollect : collect_docs retriever queries ([], []) = Except.ok (all_docs, all_content)) :
    ((retrieve_knowledge retriever queries).retrieved_docs.map Doc.page_content).Nodup ∧
    ∀ c : String,
      (c ∈ (retrieve_knowledge retriever queries).retrieved_docs.map Doc.page_content ↔
        ∃ q ∈ queries, ∃ ds, retriever q = Except.ok ds ∧ ∃ d ∈ ds, d.page_content = c) := by
  have hmap := collect_docs_snd_map retriever queries ([], [])
    (all_docs, all_content) rfl hcollect
  have hnd := collect_docs_snd_nodup retriever queries ([], [])
    (all_docs, all_content) List.nodup_nil hcollect
  have hmem := collect_docs_snd_mem retriever queries ([], [])
    (all_docs, all_content) hcollect
  dsimp only at hmap hnd hmem
  have hperm : List.Perm
      ((retrieve_knowledge retriever queries).retrieved_docs.map Doc.page_content)
      all_content := by
    cases queries with
    | nil =>
      unfold collect_docs at hcollect
      injection hcollect with h
      injection h with h1 h2
      subst h1
      subst h2
      exact List.Perm.refl _
    | cons q qs =>
      unfold retrieve_knowledge
      rw [hcollect]
      dsimp only
      split
      · dsimp only
        rw [hmap]
        exact (List.mergeSort_perm all_docs _).map Doc.page_content
      · dsimp only
        rw [hmap]
  constructor
  · exact (List.Perm.nodup_iff hperm).mpr hnd
  · intro c
    rw [hperm.mem_iff, hmem c]
    simp

/-- Witness for C2 at two queries whose retrievals overlap by content. -/
theorem retrieve_knowledge_dedup_witness :
    collect_docs
      (fun q : String =>
        Except.ok (if q = "q1" then [⟨"A", []⟩, ⟨"B", []⟩] else [⟨"B", []⟩, ⟨"C", []⟩]))
      ["q1", "q2"] ([], []) =
      Except.ok ([⟨"A", []⟩, ⟨"B", []⟩, ⟨"C", []⟩], ["A", "B", "C"]) ∧
    (((retrieve_knowledge
        (fun q : String =>
          Except.ok (if q = "q1" then [⟨"A", []⟩, ⟨"B", []⟩] else [⟨"B", []⟩, ⟨"C", []⟩]))
        ["q1", "q2"]).retrieved_docs.map Doc.page_content).Nodup ∧
      ∀ c : String,
        (c ∈ (retrieve_knowledge
            (fun q : String =>
              Except.ok (if q = "q1" then [⟨"A", []⟩, ⟨"B", []⟩] else [⟨"B", []⟩, ⟨"C", []⟩]))
            ["q1", "q2"]).retrieved_docs.map Doc.page_content ↔
          ∃ q ∈ ["q1", "q2"], ∃ ds : List Doc,
            (fun q : String =>
              (Except.ok (if q = "q1" then [⟨"A", []⟩, ⟨"B", []⟩] else [⟨"B", []⟩, ⟨"C", []⟩]) :
                Except Unit (List Doc))) q =
              Except.ok ds ∧ ∃ d ∈ ds, d.page_content = c)) :=
  ⟨rfl, retrieve_knowledge_dedup _ ["q1", "q2"] _ _ rfl⟩

/-- C1: when more than one distinct document is accepted, the Knowledge
Retrieval Node outputs the documents in non-increasing order of the
`rank_doc` term-overlap score against the first query, and documents of
equal score keep their prior relative order (stable sort): for every score
the sub-sequence of documents of that score is unchanged. -/
theorem retrieve_knowledge_ranking (retriever : String → Except Unit (List Doc))
    (q0 : String) (rest : List String) (all_docs : List Doc) (all_content : List String)
    (hcollect : collect_docs retriever (q0 :: rest) ([], []) = Except.ok (all_docs, all_content))
    (h2 : 1 < all_docs.length) :
    (retrieve_knowledge retriever (q0 :: rest)).retrieved_docs.Pairwise
      (fun a b => rank_doc q0 b ≤ rank_doc q0 a) ∧
    ∀ s : Nat,
      (retrieve_knowledge retriever (q0 :: rest)).retrieved_docs.filter
          (fun d => rank_doc q0 d == s) =
        all_docs.filter (fun d => rank_doc q0 d == s) := by
  have hout : (retrieve_knowledge retriever (q0 :: rest)).retrieved_docs =
      all_docs.mergeSort (fun a b => decide (rank_doc q0 b ≤ rank_doc q0 a)) := by
    unfold retrieve_knowledge
    rw [hcollect]
    dsimp only
    rw [if_pos h2]
  rw [hout]
  have htrans : ∀ a b c : Doc,
      decide (rank_doc q0 b ≤ rank_doc q0 a) = true →
      decide (rank_doc q0 c ≤ rank_doc q0 b) = true →
      decide (rank_doc q0 c ≤ rank_doc q0 a) = true := by
    intro a b c hab hbc
    simp only [decide_eq_true_eq] at hab hbc ⊢
    omega
  have htotal : ∀ a b : Doc,
      (decide (rank_doc q0 b ≤ rank_doc q0 a) || decide (rank_doc q0 a ≤ rank_doc q0 b)) = true := by
    intro a b
    simp only [Bool.or_eq_true, decide_eq_true_eq]
    omega
  constructor
  · have hs := List.sorted_mergeSort htrans htotal all_docs
    exact hs.imp (fun h => by simpa using h)
  · intro s
    have hperm : List.Perm
        (all_docs.mergeSort (fun a b => decide (rank_doc q0 b ≤ rank_doc q0 a)))
        all_docs := List.mergeSort_perm all_docs _
    have hself : (all_docs.filter (fun d => rank_doc q0 d == s)).filter
        (fun d => rank_doc q0 d == s) = all_docs.filter (fun d => rank_doc q0 d == s) := by
      rw [List.filter_eq_self]
      intro a ha
      exact (List.mem_filter.mp ha).2
    have hpair : (all_docs.filter (fun d => rank_doc q0 d == s)).Pairwise
        (fun a b => decide (rank_doc q0 b ≤ rank_doc q0 a) = true) := by
      apply List.pairwise_of_forall_mem_list
      intro a ha b hb
      have ha2 := (List.mem_filter.mp ha).2
      have hb2 := (List.mem_filter.mp hb).2
      simp only [beq_iff_eq] at ha2 hb2
      simp [ha2, hb2]
    have hsub : List.Sublist (all_docs.filter (fun d => rank_doc q0 d == s))
        (all_docs.mergeSort (fun a b => decide (rank_doc q0 b ≤ rank_doc q0 a))) :=
      List.sublist_mergeSort htrans htotal hpair (List.filter_sublist all_docs)
    have hsubf := hsub.filter (fun d => rank_doc q0 d == s)
    rw [hself] at hsubf
    have hlen : ((all_docs.mergeSort
          (fun a b => decide (rank_doc q0 b ≤ rank_doc q0 a))).filter
          (fun d => rank_doc q0 d == s)).length =
        (all_docs.filter (fun d => rank_doc q0 d == s)).length :=
      (hperm.filter _).length_eq
    exact (hsubf.eq_of_length hlen.symm).symm

/-- Witness for C1 at a retriever returning two documents of distinct
overlap with the first query. -/
theorem retrieve_knowledge_ranking_witness :
    (collect_docs (fun _ : String => Except.ok [⟨"x y", []⟩, ⟨"a b", []⟩]) ["a b"] ([], []) =
        Except.ok ([⟨"x y", []⟩, ⟨"a b", []⟩], ["x y", "a b"]) ∧
      1 < ([⟨"x y", []⟩, ⟨"a b", []⟩] : List Doc).length) ∧
    ((retrieve_knowledge (fun _ : String => Except.ok [⟨"x y", []⟩, ⟨"a b", []⟩])
        ["a b"]).retrieved_docs.Pairwise (fun a b => rank_doc "a b" b ≤ rank_doc "a b" a) ∧
      ∀ s : Nat,
        (retrieve_knowledge (fun _ : String => Except.ok [⟨"x y", []⟩, ⟨"a b", []⟩])
            ["a b"]).retrieved_docs.filter (fun d => rank_doc "a b" d == s) =
          ([⟨"x y", []⟩, ⟨"a b", []⟩] : List Doc).filter (fun d => rank_doc "a b" d == s)) :=
  ⟨⟨rfl, by decide⟩,
    retrieve_knowledge_ranking _ "a b" [] _ _ rfl (by decide)⟩
